import Mathlib

/-!
# jit-repro: host JIT driver (`main.cpp`) and Level Zero runtime wrappers (`runtime.cpp`)

A shallow embedding of the two source files.  Every call into an external
library (Level Zero, LLVM ORC, the C library) is an event of the run; what the
library answers is read from a description of the environment (`L0`, `Host`),
so that each function of the source becomes a pure function from the
environment to the list of events it issues and the way it ends.
-/

namespace JitRepro

/-! ## Runs: events, exceptions, process termination -/

/-- A Level Zero handle is a pointer; `nullptr` is `0`. -/
abbrev Handle := Nat

/-- The `nullptr` handle. -/
def nullptr : Handle := 0

/-- The status code `ze_result_t` of a Level Zero call (an unscoped enum, printed by
`std::to_string` as a decimal integer). -/
abbrev ze_result_t := Nat

/-- Value of `ZE_RESULT_SUCCESS` in `level_zero/ze_api.h` (external header). -/
def ZE_RESULT_SUCCESS : ze_result_t := 0

/-- Value of `ZE_DEVICE_TYPE_GPU` in `level_zero/ze_api.h` (external header). -/
def ZE_DEVICE_TYPE_GPU : Nat := 1

/-- Value of `ZE_INIT_FLAG_GPU_ONLY` in `level_zero/ze_api.h` (external header). -/
def ZE_INIT_FLAG_GPU_ONLY : Nat := 1

/-- Value of `ZE_COMMAND_QUEUE_GROUP_PROPERTY_FLAG_COMPUTE`, `ZE_BIT(0)`, in
`level_zero/ze_api.h` (external header). -/
def ZE_COMMAND_QUEUE_GROUP_PROPERTY_FLAG_COMPUTE : Nat := 1

/-- Value of `ZE_COMMAND_QUEUE_MODE_SYNCHRONOUS` in `level_zero/ze_api.h` (external header). -/
def ZE_COMMAND_QUEUE_MODE_SYNCHRONOUS : Nat := 1

/-- The Level Zero entry points called by `runtime.cpp`, with the arguments that
matter.  A two-phase query appears twice: once asking for the count (`nullptr`
buffer) and once filling a buffer of `count` entries. -/
inductive ZeCall where
  | zeInit (flags : Nat)
  | zeDriverGetCount
  | zeDriverGet (count : Nat)
  | zeDeviceGetCount (driver : Handle)
  | zeDeviceGet (driver : Handle) (count : Nat)
  | zeDeviceGetProperties (device : Handle)
  | zeContextCreate (driver : Handle)
  | zeDeviceGetCommandQueueGroupPropertiesCount (device : Handle)
  | zeDeviceGetCommandQueueGroupProperties (device : Handle) (count : Nat)
  | zeCommandListCreateImmediate (context device : Handle) (mode ordinal : Nat)
  | zeContextDestroy (context : Handle)
  | zeCommandListDestroy (commandList : Handle)
  | zeModuleCreate (context device : Handle) (pInputModule : List Nat) (inputSize : Nat)
      (pBuildFlags : Option String) (phBuildLog : Option Handle)
  | zeModuleBuildLogGetStringSize (buildlog : Handle)
  | zeModuleBuildLogGetString (buildlog : Handle) (size : Nat)
  deriving DecidableEq, Repr

/-- The output streams written by the program. -/
inductive Stream where
  | stdout
  | stderr
  deriving DecidableEq, Repr

/-- The steps of `main` that go into LLVM or the file system. -/
inductive HostCall where
  | InitializeNativeTarget
  | InitializeNativeTargetAsmPrinter
  | InitializeNativeTargetAsmParser
  | createExecutorProcessControl
  | detectHost
  | getDefaultDataLayoutForTarget
  | createJITDylib (name : String)
  | getForCurrentProcess
  | addGenerator
  | parseIRFile (filename : String)
  | printModule (ir : Nat)
  | setDataLayout (ir : Nat)
  | compilerLayerAdd (ir : Nat)
  | lookup (symbol : String)
  | readFile (path : String)
  | callEntryPoint (size : Nat)
  deriving DecidableEq, Repr

/-- One observable step of a run. -/
inductive Event where
  | ze (call : ZeCall) (res : ze_result_t)
  | host (call : HostCall)
  | write (stream : Stream) (text : String)
  deriving DecidableEq, Repr

/-- A C++ exception in flight.  The only `throw` expressions of the sources throw
`std::runtime_error`; `what` is its message. -/
inductive Exn where
  | runtime_error (what : String)
  deriving DecidableEq, Repr

/-- The ways the process stops other than by returning from `main`. -/
inductive Halt where
  | exit (code : Nat)
  | abort
  | terminate
  | nullDereference
  deriving DecidableEq, Repr

/-- How a piece of code ends: it returns a value, an exception leaves it, or the
process stops inside it. -/
inductive Res (α : Type) where
  | ok (a : α)
  | throw (e : Exn)
  | halt (h : Halt)
  deriving DecidableEq, Repr

/-- A run of a piece of code: the events it issued, in order, and how it ended. -/
structure Run (α : Type) where
  trace : List Event
  res : Res α
  deriving DecidableEq, Repr

/-- Sequencing: the second part runs only when the first returned. -/
def Run.bind {α β : Type} (m : Run α) (f : α → Run β) : Run β :=
  match m.res with
  | .ok a => ⟨m.trace ++ (f a).trace, (f a).res⟩
  | .throw e => ⟨m.trace, .throw e⟩
  | .halt h => ⟨m.trace, .halt h⟩

instance : Monad Run where
  pure a := ⟨[], .ok a⟩
  bind := Run.bind

/-- Record one event. -/
def emit (e : Event) : Run Unit := ⟨[e], .ok ()⟩

/-- A `throw std::runtime_error(what)` expression. -/
def throwRuntimeError {α : Type} (what : String) : Run α := ⟨[], .throw (.runtime_error what)⟩

/-- The process stops here. -/
def haltWith {α : Type} (h : Halt) : Run α := ⟨[], .halt h⟩

/-! ## `runtime.cpp` -/

/-- Translation of `checkResult`: throws
`std::runtime_error(std::string(func) + " failed: " + std::to_string(res))` when
`res != ZE_RESULT_SUCCESS`. -/
def checkResult (res : ze_result_t) (func : String) : Run Unit :=
  if res ≠ ZE_RESULT_SUCCESS then
    throwRuntimeError (func ++ " failed: " ++ toString res)
  else
    pure ()

/-- Translation of `CHECK_ZE_RESULT(expr)`: evaluates the call `expr` (recorded
with the status it returned) and passes the status and the text of `expr` to
`checkResult`. -/
def CHECK_ZE_RESULT (call : ZeCall) (res : ze_result_t) (expr : String) : Run Unit := do
  emit (.ze call res)
  checkResult res expr

/-- Translation of `catchAll`: runs `func`; an exception leaving it is logged on
`stdout` and the process is aborted.  (The `catch (...)` handler is not
reachable: every exception of the sources is a `std::runtime_error`.) -/
def catchAll {α : Type} (func : Run α) : Run α :=
  match func.res with
  | .throw (.runtime_error what) =>
      ⟨func.trace ++ [.write .stdout ("An exception was thrown: " ++ what ++ "\n")],
        .halt .abort⟩
  | _ => func

/-- A function declared `noexcept`: an exception that would leave it calls
`std::terminate` instead.  Since C++11 a destructor without an exception
specification is `noexcept` when, as for `GPUL0QUEUE`, no member or base has a
throwing destructor. -/
def noexcept {α : Type} (body : Run α) : Run α :=
  match body.res with
  | .throw _ => ⟨body.trace, .halt .terminate⟩
  | _ => body

/-- The field of `ze_command_queue_group_properties_t` read by the source. -/
structure ze_command_queue_group_properties_t where
  flags : Nat
  deriving DecidableEq, Repr

/-- What the Level Zero driver stack answers to each call of `runtime.cpp`:
the status of the call and the values it writes through its output pointers. -/
structure L0 where
  zeInit : ze_result_t
  zeDriverGetCount : ze_result_t
  zeDriverGet : ze_result_t
  drivers : List Handle
  zeDeviceGetCount : Handle → ze_result_t
  zeDeviceGet : Handle → ze_result_t
  devices : Handle → List Handle
  zeDeviceGetProperties : Handle → ze_result_t
  deviceName : Handle → String
  deviceType : Handle → Nat
  zeContextCreate : Handle → ze_result_t
  context : Handle → Handle
  zeQueueGroupCount : Handle → ze_result_t
  zeQueueGroupProperties : Handle → ze_result_t
  queueGroups : Handle → List ze_command_queue_group_properties_t
  zeCommandListCreateImmediate : Handle → Handle → Nat → ze_result_t
  commandList : Handle → Handle → Nat → Handle
  zeContextDestroy : Handle → ze_result_t
  zeCommandListDestroy : Handle → ze_result_t
  zeModuleCreate : List Nat → Option String → ze_result_t
  module : List Nat → Option String → Handle
  zeModuleBuildLogGetStringSize : Handle → ze_result_t
  zeModuleBuildLogGetString : Handle → ze_result_t
  buildLogSize : Handle → Nat
  buildLog : Handle → String

/-- The inner loop of `getDriverAndDevice` over the devices of driver
`allDrivers[i]`, from index `d` on: `some` pair when the `return` is reached,
`none` when the loop runs to its end. -/
def deviceLoop (l0 : L0) (deviceType : Nat) (driver : Handle) :
    List Handle → Run (Option (Handle × Handle))
  | [] => pure none
  | device :: rest => do
      CHECK_ZE_RESULT (.zeDeviceGetProperties device) (l0.zeDeviceGetProperties device)
        "zeDeviceGetProperties(devices[d], &device_properties)"
      emit (.write .stdout ("device name: " ++ l0.deviceName device ++ "\n"))
      emit (.write .stdout ("device type: " ++ toString (l0.deviceType device) ++ "\n"))
      if deviceType = l0.deviceType device then
        pure (some (driver, device))
      else
        deviceLoop l0 deviceType driver rest

/-- The outer loop of `getDriverAndDevice` over `allDrivers`, from index `i` on,
followed by the final `throw`. -/
def driverLoop (l0 : L0) (deviceType : Nat) : List Handle → Run (Handle × Handle)
  | [] => throwRuntimeError "getDevice failed"
  | driver :: rest => do
      let deviceCount := (l0.devices driver).length
      CHECK_ZE_RESULT (.zeDeviceGetCount driver) (l0.zeDeviceGetCount driver)
        "zeDeviceGet(allDrivers[i], &deviceCount, nullptr)"
      emit (.write .stdout ("device count: " ++ toString deviceCount ++ "\n"))
      if deviceCount = 0 then
        driverLoop l0 deviceType rest
      else do
        CHECK_ZE_RESULT (.zeDeviceGet driver deviceCount) (l0.zeDeviceGet driver)
          "zeDeviceGet(allDrivers[i], &deviceCount, devices.data())"
        match ← deviceLoop l0 deviceType driver (l0.devices driver) with
        | some found => pure found
        | none => driverLoop l0 deviceType rest

/-- Translation of `getDriverAndDevice`. -/
def getDriverAndDevice (l0 : L0) (deviceType : Nat := ZE_DEVICE_TYPE_GPU) :
    Run (Handle × Handle) := do
  CHECK_ZE_RESULT (.zeInit ZE_INIT_FLAG_GPU_ONLY) l0.zeInit "zeInit(ZE_INIT_FLAG_GPU_ONLY)"
  let driverCount := l0.drivers.length
  CHECK_ZE_RESULT .zeDriverGetCount l0.zeDriverGetCount "zeDriverGet(&driverCount, nullptr)"
  CHECK_ZE_RESULT (.zeDriverGet driverCount) l0.zeDriverGet
    "zeDriverGet(&driverCount, allDrivers.data())"
  emit (.write .stdout ("driverCount: " ++ toString driverCount ++ "\n"))
  driverLoop l0 deviceType l0.drivers

/-- Translation of `struct GPUL0QUEUE`: its four handle members. -/
structure GPUL0QUEUE where
  zeDriver_ : Handle := nullptr
  zeDevice_ : Handle := nullptr
  zeContext_ : Handle := nullptr
  zeCommandList_ : Handle := nullptr
  deriving DecidableEq, Repr

/-- The loop of the constructor over `queueProperties`, from index `i` on, with
the current value of `desc.ordinal`: every group whose flags have the compute
bit assigns its index to `desc.ordinal`; the loop has no `break`. -/
def ordinalLoop : List ze_command_queue_group_properties_t → Nat → Nat → Nat
  | [], _, ordinal => ordinal
  | p :: rest, i, ordinal =>
      if p.flags &&& ZE_COMMAND_QUEUE_GROUP_PROPERTY_FLAG_COMPUTE ≠ 0 then
        ordinalLoop rest (i + 1) i
      else
        ordinalLoop rest (i + 1) ordinal

/-- The value of `desc.ordinal` after the loop: `desc = {}` starts it at `0`. -/
def selectOrdinal (queueProperties : List ze_command_queue_group_properties_t) : Nat :=
  ordinalLoop queueProperties 0 0

/-- Translation of the constructor `GPUL0QUEUE::GPUL0QUEUE()`. -/
def GPUL0QUEUE.construct (l0 : L0) : Run GPUL0QUEUE := do
  let driverAndDevice ← getDriverAndDevice l0
  let zeDriver_ := driverAndDevice.1
  let zeDevice_ := driverAndDevice.2
  CHECK_ZE_RESULT (.zeContextCreate zeDriver_) (l0.zeContextCreate zeDriver_)
    "zeContextCreate(zeDriver_, &contextDesc, &zeContext_)"
  let zeContext_ := l0.context zeDriver_
  let queueProperties := l0.queueGroups zeDevice_
  let numQueueGroups := queueProperties.length
  CHECK_ZE_RESULT (.zeDeviceGetCommandQueueGroupPropertiesCount zeDevice_)
    (l0.zeQueueGroupCount zeDevice_)
    "zeDeviceGetCommandQueueGroupProperties( zeDevice_, &numQueueGroups, nullptr)"
  CHECK_ZE_RESULT (.zeDeviceGetCommandQueueGroupProperties zeDevice_ numQueueGroups)
    (l0.zeQueueGroupProperties zeDevice_)
    "zeDeviceGetCommandQueueGroupProperties( zeDevice_, &numQueueGroups, queueProperties.data())"
  let ordinal := selectOrdinal queueProperties
  CHECK_ZE_RESULT
    (.zeCommandListCreateImmediate zeContext_ zeDevice_ ZE_COMMAND_QUEUE_MODE_SYNCHRONOUS ordinal)
    (l0.zeCommandListCreateImmediate zeContext_ zeDevice_ ordinal)
    "zeCommandListCreateImmediate(zeContext_, zeDevice_, &desc, &zeCommandList_)"
  let zeCommandList_ := l0.commandList zeContext_ zeDevice_ ordinal
  pure { zeDriver_, zeDevice_, zeContext_, zeCommandList_ }

/-- The statements of the destructor `GPUL0QUEUE::~GPUL0QUEUE()`. -/
def GPUL0QUEUE.destructorBody (l0 : L0) (q : GPUL0QUEUE) : Run Unit := do
  if q.zeContext_ ≠ nullptr then
    CHECK_ZE_RESULT (.zeContextDestroy q.zeContext_) (l0.zeContextDestroy q.zeContext_)
      "zeContextDestroy(zeContext_)"
  if q.zeCommandList_ ≠ nullptr then
    CHECK_ZE_RESULT (.zeCommandListDestroy q.zeCommandList_)
      (l0.zeCommandListDestroy q.zeCommandList_) "zeCommandListDestroy(zeCommandList_)"

/-- The destructor as it is called: its statements, under the implicit
`noexcept` of a destructor. -/
def GPUL0QUEUE.destroy (l0 : L0) (q : GPUL0QUEUE) : Run Unit :=
  noexcept (GPUL0QUEUE.destructorBody l0 q)

/-- The preset assigned to `build_flags` when `MIMIC_OCLOC` is set (three adjacent
string literals in the source). -/
def mimicOclocFlags : String :=
  "-ze-intel-has-buffer-offset-arg " ++
  "-cl-intel-greater-than-4GB-buffer-required " ++
  "-cl-store-cache-default=2 -cl-load-cache-default=4"

/-- The value of the local `build_flags` of `loadModule` after its three `if`
statements; `getenv name` is `none` when the variable is not set. -/
def build_flags (getenv : String → Option String) : Option String :=
  let build_flags : Option String := none
  let build_flags := if (getenv "ENABLE_VC_PATH").isSome then some "-vc-codegen" else build_flags
  let build_flags := if (getenv "MIMIC_OCLOC").isSome then some mimicOclocFlags else build_flags
  let build_flags :=
    if (getenv "COMPILE_IGC_FLAGS").isSome then getenv "COMPILE_IGC_FLAGS" else build_flags
  build_flags

/-- Translation of `loadModule`; `data` is the buffer of `dataSize` bytes behind
the non-null pointer `data`.  The local `buildlog` stays `nullptr`: the last
argument of `zeModuleCreate` is `nullptr`, not `&buildlog`. -/
def loadModule (getenv : String → Option String) (l0 : L0) (queue : GPUL0QUEUE)
    (data : List Nat) (dataSize : Nat) : Run Handle := do
  let gpuL0Queue := queue
  let build_flags := build_flags getenv
  emit (.write .stderr ("L0 module build flags: " ++ build_flags.getD "empty" ++ "\n"))
  let buildlog : Handle := nullptr
  CHECK_ZE_RESULT
    (.zeModuleCreate gpuL0Queue.zeContext_ gpuL0Queue.zeDevice_ data dataSize build_flags none)
    (l0.zeModuleCreate data build_flags)
    "zeModuleCreate(gpuL0Queue->zeContext_, gpuL0Queue->zeDevice_, &desc, &zeModule, nullptr)"
  let zeModule := l0.module data build_flags
  CHECK_ZE_RESULT (.zeModuleBuildLogGetStringSize buildlog)
    (l0.zeModuleBuildLogGetStringSize buildlog)
    "zeModuleBuildLogGetString(buildlog, &logSize, nullptr)"
  let logSize := l0.buildLogSize buildlog
  CHECK_ZE_RESULT (.zeModuleBuildLogGetString buildlog logSize)
    (l0.zeModuleBuildLogGetString buildlog)
    "zeModuleBuildLogGetString(buildlog, &logSize, strLog.data())"
  let strLog := l0.buildLog buildlog
  if logSize > 0 then
    emit (.write .stderr ("L0 Module build log:\n" ++ strLog ++ "\n"))
  pure zeModule

/-- Translation of the wrapper `gpuCreateStream` (its two parameters are unused). -/
def gpuCreateStream (l0 : L0) : Run GPUL0QUEUE :=
  catchAll (GPUL0QUEUE.construct l0)

/-- Translation of the wrapper `gpuStreamDestroy`; `delete` of a null pointer
(`none`) does nothing. -/
def gpuStreamDestroy (l0 : L0) (queue : Option GPUL0QUEUE) : Run Unit :=
  catchAll (match queue with
    | none => pure ()
    | some q => GPUL0QUEUE.destroy l0 q)

/-- Translation of the wrapper `gpuModuleLoad`. -/
def gpuModuleLoad (getenv : String → Option String) (l0 : L0) (queue : GPUL0QUEUE)
    (data : List Nat) (dataSize : Nat) : Run Handle :=
  catchAll (loadModule getenv l0 queue data dataSize)

/-! ## `main.cpp` -/

/-- What LLVM and the file system answer to `main`.  `InitializeNativeTarget` is
the value the call returns (LLVM: `true` when there is no native target);
the other Boolean fields say whether the step succeeds; `parseIRFile` gives the
parsed module, if any, and `errorMessage` the parser's diagnostic;
`callEntryPoint` is `some h` when the process stops inside the compiled
function. -/
structure Host where
  InitializeNativeTarget : Bool
  createExecutorProcessControl : Bool
  detectHost : Bool
  getDefaultDataLayoutForTarget : Bool
  createJITDylib : Bool
  getForCurrentProcess : Bool
  parseIRFile : String → Option Nat
  errorMessage : String → String
  lookup : String → Bool
  readFile : String → List Nat
  callEntryPoint : List Nat → Option Halt

/-- Translation of `readIRFromFile`. -/
def readIRFromFile (host : Host) (filename : String := "main.ll") : Run (Option Nat) := do
  emit (.host (.parseIRFile filename))
  let m := host.parseIRFile filename
  if m.isNone then
    emit (.write .stderr ("Could not read from mail.ll (" ++ host.errorMessage filename ++ ")\n"))
  pure m

/-- The use `ir->...` of the `unique_ptr` returned by `readIRFromFile`: a null
pointer is dereferenced when there is no module. -/
def deref (ir : Option Nat) : Run Nat :=
  match ir with
  | some m => pure m
  | none => haltWith .nullDereference

/-- Translation of `cantFail(...)`: the process is aborted when the value is an error. -/
def cantFail (call : HostCall) (succeeds : Bool) : Run Unit := do
  emit (.host call)
  if succeeds then pure () else haltWith .abort

/-- Translation of `main`; `argc` is the length of `argv`. -/
def main (host : Host) (argv : List String) : Run Nat := do
  let argc := argv.length
  emit (.host .InitializeNativeTarget)
  let target_err := host.InitializeNativeTarget
  if !target_err then
    emit (.write .stderr "Could not initialize native target!\n")
  emit (.host .InitializeNativeTargetAsmPrinter)
  emit (.host .InitializeNativeTargetAsmParser)
  cantFail .createExecutorProcessControl host.createExecutorProcessControl
  emit (.host .detectHost)
  if !host.detectHost then
    emit (.write .stderr "Could not create JITTargetMachineBuilder!\n")
    haltWith (.exit 1)
  emit (.host .getDefaultDataLayoutForTarget)
  if !host.getDefaultDataLayoutForTarget then
    emit (.write .stderr "Could not init Data Layout!\n")
    haltWith (.exit 1)
  emit (.host (.createJITDylib "<main>"))
  if !host.createJITDylib then
    emit (.write .stderr "Could not create JIT Dylib!\n")
    haltWith (.exit 1)
  cantFail .getForCurrentProcess host.getForCurrentProcess
  emit (.host .addGenerator)
  let ir ← readIRFromFile host "main.ll"
  let m ← deref ir
  emit (.host (.printModule m))
  emit (.host (.setDataLayout m))
  emit (.host (.compilerLayerAdd m))
  emit (.host (.lookup "vadd_entry"))
  if !host.lookup "vadd_entry" then
    emit (.write .stderr "Failed to find the entry point!\n")
    haltWith (.exit 1)
  emit (.write .stderr "Getting spirv from the input...\n")
  if argc ≠ 2 then
    emit (.write .stderr "Please provide spirv binary input as the first argument.\n")
    haltWith (.exit 1)
  emit (.host (.readFile (argv.getD 1 "")))
  let spv := host.readFile (argv.getD 1 "")
  let data := spv
  let data_size := spv.length
  emit (.host (.callEntryPoint data_size))
  match host.callEntryPoint data with
  | some h => haltWith h
  | none => pure 0

/-! ## Concrete environments -/

/-- A driver stack in which every call succeeds: driver `10` has no device,
driver `20` has device `21` (type `2`) and the GPU `22`, whose queue groups have
flags `1`, `3`, `2`. -/
def l0Ok : L0 where
  zeInit := ZE_RESULT_SUCCESS
  zeDriverGetCount := ZE_RESULT_SUCCESS
  zeDriverGet := ZE_RESULT_SUCCESS
  drivers := [10, 20]
  zeDeviceGetCount := fun _ => ZE_RESULT_SUCCESS
  zeDeviceGet := fun _ => ZE_RESULT_SUCCESS
  devices := fun driver => if driver = 20 then [21, 22] else []
  zeDeviceGetProperties := fun _ => ZE_RESULT_SUCCESS
  deviceName := fun device => if device = 22 then "gpu" else "cpu"
  deviceType := fun device => if device = 22 then ZE_DEVICE_TYPE_GPU else 2
  zeContextCreate := fun _ => ZE_RESULT_SUCCESS
  context := fun driver => driver + 100
  zeQueueGroupCount := fun _ => ZE_RESULT_SUCCESS
  zeQueueGroupProperties := fun _ => ZE_RESULT_SUCCESS
  queueGroups := fun _ => [⟨1⟩, ⟨3⟩, ⟨2⟩]
  zeCommandListCreateImmediate := fun _ _ _ => ZE_RESULT_SUCCESS
  commandList := fun context _ _ => context + 100
  zeContextDestroy := fun _ => ZE_RESULT_SUCCESS
  zeCommandListDestroy := fun _ => ZE_RESULT_SUCCESS
  zeModuleCreate := fun _ _ => ZE_RESULT_SUCCESS
  module := fun _ _ => 300
  zeModuleBuildLogGetStringSize := fun _ => ZE_RESULT_SUCCESS
  zeModuleBuildLogGetString := fun _ => ZE_RESULT_SUCCESS
  buildLogSize := fun _ => 0
  buildLog := fun _ => ""

/-- The queue built by the constructor on `l0Ok`. -/
def queueOk : GPUL0QUEUE :=
  { zeDriver_ := 20, zeDevice_ := 22, zeContext_ := 120, zeCommandList_ := 220 }

/-- The driver stack `l0Ok`, except that `zeCommandListCreateImmediate` returns the
non-success status `0x70000001`. -/
def l0CommandListFails : L0 :=
  { l0Ok with zeCommandListCreateImmediate := fun _ _ _ => 0x70000001 }

/-- The driver stack `l0Ok`, except that `zeModuleCreate` returns the non-success
status `0x70000004`. -/
def l0BuildFails : L0 :=
  { l0Ok with zeModuleCreate := fun _ _ => 0x70000004 }

/-- The driver stack `l0Ok`, except that `zeContextDestroy` returns the
non-success status `0x70000001`. -/
def l0DestroyFails : L0 :=
  { l0Ok with zeContextDestroy := fun _ => 0x70000001 }

/-- An environment with none of the three variables set. -/
def envEmpty : String → Option String := fun _ => none

/-- An environment with all three variables set; `MIMIC_OCLOC` and
`ENABLE_VC_PATH` are set to the empty string. -/
def envAll : String → Option String := fun name =>
  if name = "COMPILE_IGC_FLAGS" then some "-O0"
  else if name = "MIMIC_OCLOC" then some ""
  else if name = "ENABLE_VC_PATH" then some ""
  else none

/-- A host on which every step of `main` succeeds (`InitializeNativeTarget`
returns `false`: the native target is there). -/
def hostOk : Host where
  InitializeNativeTarget := false
  createExecutorProcessControl := true
  detectHost := true
  getDefaultDataLayoutForTarget := true
  createJITDylib := true
  getForCurrentProcess := true
  parseIRFile := fun _ => some 7
  errorMessage := fun _ => ""
  lookup := fun _ => true
  readFile := fun _ => [3, 2, 35, 7]
  callEntryPoint := fun _ => none

/-- The host `hostOk`, except that `main.ll` does not parse. -/
def hostBadIR : Host :=
  { hostOk with parseIRFile := fun _ => none, errorMessage := fun _ => "expected top-level entity" }

/-- The host `hostOk`, except that `JITTargetMachineBuilder::detectHost` fails. -/
def hostNoBuilder : Host :=
  { hostOk with detectHost := false }

/-- The host `hostOk`, except that `InitializeNativeTarget` returns `true`: there
is no native target. -/
def hostNoTarget : Host :=
  { hostOk with InitializeNativeTarget := true }

/-! ## Notions used to state the properties -/

/-- The (driver, device) pairs in the order `getDriverAndDevice` visits them:
drivers in enumeration order and, within a driver, its devices in enumeration order. -/
def devicePairs (l0 : L0) : List Handle → List (Handle × Handle)
  | [] => []
  | driver :: rest =>
      (l0.devices driver).map (fun device => (driver, device)) ++ devicePairs l0 rest

/-- Every call made while the devices are enumerated succeeds. -/
def EnumerationSucceeds (l0 : L0) : Prop :=
  l0.zeInit = ZE_RESULT_SUCCESS ∧ l0.zeDriverGetCount = ZE_RESULT_SUCCESS ∧
  l0.zeDriverGet = ZE_RESULT_SUCCESS ∧
  ∀ driver ∈ l0.drivers,
    l0.zeDeviceGetCount driver = ZE_RESULT_SUCCESS ∧ l0.zeDeviceGet driver = ZE_RESULT_SUCCESS ∧
    ∀ device ∈ l0.devices driver, l0.zeDeviceGetProperties device = ZE_RESULT_SUCCESS

/-- The flags of a queue group include `ZE_COMMAND_QUEUE_GROUP_PROPERTY_FLAG_COMPUTE`. -/
def IsCompute (p : ze_command_queue_group_properties_t) : Prop :=
  p.flags &&& ZE_COMMAND_QUEUE_GROUP_PROPERTY_FLAG_COMPUTE ≠ 0

instance (p : ze_command_queue_group_properties_t) : Decidable (IsCompute p) := by
  unfold IsCompute
  infer_instance

/-- Index `i` is the first compute group of `groups`. -/
def FirstComputeGroup (groups : List ze_command_queue_group_properties_t) (i : Nat) : Prop :=
  (∃ p, groups[i]? = some p ∧ IsCompute p) ∧
  ∀ j p, j < i → groups[j]? = some p → ¬ IsCompute p

/-- Index `i` is the last compute group of `groups`. -/
def LastComputeGroup (groups : List ze_command_queue_group_properties_t) (i : Nat) : Prop :=
  (∃ p, groups[i]? = some p ∧ IsCompute p) ∧
  ∀ j p, i < j → groups[j]? = some p → ¬ IsCompute p

/-- Event `a` occurs in `t` before the first occurrence of event `b`. -/
def Precedes (a b : Event) (t : List Event) : Prop :=
  a ∈ t ∧ b ∈ t ∧ t.indexOf a < t.indexOf b

instance (a b : Event) (t : List Event) : Decidable (Precedes a b t) := by
  unfold Precedes
  infer_instance

/-- Every event of the run satisfies `P`. -/
def Run.All {α : Type} (P : Event → Prop) (m : Run α) : Prop :=
  ∀ e ∈ m.trace, P e

/-- The event is a call of `zeContextDestroy`. -/
def Event.isContextDestroy : Event → Bool
  | .ze (.zeContextDestroy _) _ => true
  | _ => false

/-- The event is the call of the compiled entry point. -/
def Event.isCallEntryPoint : Event → Bool
  | .host (.callEntryPoint _) => true
  | _ => false

/-- The usage message of `main`. -/
def usageMessage : Event :=
  .write .stderr "Please provide spirv binary input as the first argument.\n"

/-- The message `main` writes about the native target. -/
def nativeTargetMessage : Event :=
  .write .stderr "Could not initialize native target!\n"

/-- Every step of `main` before the test of `argc` succeeds. -/
def ReachesArgumentCheck (host : Host) : Prop :=
  host.createExecutorProcessControl = true ∧ host.detectHost = true ∧
  host.getDefaultDataLayoutForTarget = true ∧ host.createJITDylib = true ∧
  host.getForCurrentProcess = true ∧ (host.parseIRFile "main.ll").isSome = true ∧
  host.lookup "vadd_entry" = true

/-- The precedence the build flags are said to follow: the raw flags, else the
preset, else the alternate code generator, else none. -/
def flagsByPrecedence (getenv : String → Option String) : Option String :=
  match getenv "COMPILE_IGC_FLAGS" with
  | some raw => some raw
  | none =>
    if (getenv "MIMIC_OCLOC").isSome then some mimicOclocFlags
    else if (getenv "ENABLE_VC_PATH").isSome then some "-vc-codegen"
    else none

/-! ## Theorems -/

theorem Run.bind_eq {α β : Type} (m : Run α) (f : α → Run β) : (m >>= f) = Run.bind m f := rfl

theorem Run.pure_eq {α : Type} (a : α) : (pure a : Run α) = ⟨[], .ok a⟩ := rfl

theorem emit_bind {β : Type} (e : Event) (f : Unit → Run β) :
    (emit e >>= f) = ⟨e :: (f ()).trace, (f ()).res⟩ := rfl

theorem CHECK_ZE_RESULT_success (call : ZeCall) (expr : String) :
    CHECK_ZE_RESULT call ZE_RESULT_SUCCESS expr = emit (.ze call ZE_RESULT_SUCCESS) := rfl

theorem CHECK_ZE_RESULT_failure (call : ZeCall) (res : ze_result_t) (expr : String)
    (h : res ≠ ZE_RESULT_SUCCESS) :
    CHECK_ZE_RESULT call res expr =
      ⟨[.ze call res], .throw (.runtime_error (expr ++ " failed: " ++ toString res))⟩ := by
  simp [CHECK_ZE_RESULT, checkResult, h, emit_bind, throwRuntimeError]

/-! ### `getDriverAndDevice` -/

theorem deviceLoop_res (l0 : L0) (deviceType : Nat) (driver : Handle) (devs : List Handle)
    (h : ∀ d ∈ devs, l0.zeDeviceGetProperties d = ZE_RESULT_SUCCESS) :
    (deviceLoop l0 deviceType driver devs).res =
      .ok ((devs.find? (fun d => decide (deviceType = l0.deviceType d))).map
        (fun d => (driver, d))) := by
  induction devs with
  | nil => rfl
  | cons d rest ih =>
    have hd := h d (List.mem_cons_self _ _)
    have ih := ih (fun x hx => h x (List.mem_cons_of_mem _ hx))
    by_cases hty : deviceType = l0.deviceType d
    · simp [deviceLoop, hd, CHECK_ZE_RESULT_success, emit_bind, hty, Run.pure_eq]
    · simp [deviceLoop, hd, CHECK_ZE_RESULT_success, emit_bind, hty, ih]

theorem bind_res_of_ok {α β : Type} {m : Run α} {a : α} (h : m.res = .ok a) (f : α → Run β) :
    (m >>= f).res = (f a).res := by
  simp [Run.bind_eq, Run.bind, h]

theorem bind_trace_of_ok {α β : Type} {m : Run α} {a : α} (h : m.res = .ok a) (f : α → Run β) :
    (m >>= f).trace = m.trace ++ (f a).trace := by
  simp [Run.bind_eq, Run.bind, h]

theorem bind_res_of_throw {α β : Type} {m : Run α} {e : Exn} (h : m.res = .throw e)
    (f : α → Run β) : (m >>= f).res = .throw e := by
  simp [Run.bind_eq, Run.bind, h]

theorem bind_trace_of_throw {α β : Type} {m : Run α} {e : Exn} (h : m.res = .throw e)
    (f : α → Run β) : (m >>= f).trace = m.trace := by
  simp [Run.bind_eq, Run.bind, h]

theorem find?_map_pair (l0 : L0) (deviceType : Nat) (driver : Handle) (devs : List Handle) :
    (devs.map (fun device => (driver, device))).find?
        (fun p => decide (deviceType = l0.deviceType p.2)) =
      (devs.find? (fun d => decide (deviceType = l0.deviceType d))).map (fun d => (driver, d)) := by
  induction devs with
  | nil => rfl
  | cons d rest ih =>
    by_cases hty : deviceType = l0.deviceType d
    · simp [hty]
    · simp [hty, ih]

theorem driverLoop_res (l0 : L0) (deviceType : Nat) (drvs : List Handle)
    (h : ∀ driver ∈ drvs,
      l0.zeDeviceGetCount driver = ZE_RESULT_SUCCESS ∧ l0.zeDeviceGet driver = ZE_RESULT_SUCCESS ∧
      ∀ device ∈ l0.devices driver, l0.zeDeviceGetProperties device = ZE_RESULT_SUCCESS) :
    (driverLoop l0 deviceType drvs).res =
      match (devicePairs l0 drvs).find? (fun p => decide (deviceType = l0.deviceType p.2)) with
      | some p => .ok p
      | none => .throw (.runtime_error "getDevice failed") := by
  induction drvs with
  | nil => rfl
  | cons drv rest ih =>
    obtain ⟨hc, hg, hp⟩ := h drv (List.mem_cons_self _ _)
    have ih := ih (fun x hx => h x (List.mem_cons_of_mem _ hx))
    have hdev := deviceLoop_res l0 deviceType drv (l0.devices drv) hp
    simp only [devicePairs, List.find?_append, find?_map_pair]
    by_cases hz : (l0.devices drv).length = 0
    · have hnil : l0.devices drv = [] := List.length_eq_zero.mp hz
      simp [driverLoop, hc, CHECK_ZE_RESULT_success, emit_bind, hnil, ih]
    · cases hf : (l0.devices drv).find? (fun d => decide (deviceType = l0.deviceType d)) with
      | none =>
        rw [hf] at hdev
        simp [driverLoop, hc, hg, CHECK_ZE_RESULT_success, emit_bind, hz,
          bind_res_of_ok hdev, ih]
      | some d =>
        rw [hf] at hdev
        simp [driverLoop, hc, hg, CHECK_ZE_RESULT_success, emit_bind, hz,
          bind_res_of_ok hdev, Run.pure_eq]

theorem getDriverAndDevice_res (l0 : L0) (deviceType : Nat) (h : EnumerationSucceeds l0) :
    (getDriverAndDevice l0 deviceType).res =
      match (devicePairs l0 l0.drivers).find?
          (fun p => decide (deviceType = l0.deviceType p.2)) with
      | some p => .ok p
      | none => .throw (.runtime_error "getDevice failed") := by
  obtain ⟨h1, h2, h3, h4⟩ := h
  simp [getDriverAndDevice, h1, h2, h3, CHECK_ZE_RESULT_success, emit_bind,
    driverLoop_res l0 deviceType l0.drivers h4]

/-- C4: when every enumeration call succeeds, `getDriverAndDevice` returns the first
(driver, device) pair, in driver-major enumeration order, whose device has the
requested type, and throws "getDevice failed" when no pair has it. -/
theorem getDriverAndDevice_first_match (l0 : L0) (deviceType : Nat)
    (h : EnumerationSucceeds l0) :
    (∀ pre p post, devicePairs l0 l0.drivers = pre ++ p :: post →
        l0.deviceType p.2 = deviceType → (∀ q ∈ pre, l0.deviceType q.2 ≠ deviceType) →
        (getDriverAndDevice l0 deviceType).res = .ok p) ∧
    ((∀ q ∈ devicePairs l0 l0.drivers, l0.deviceType q.2 ≠ deviceType) →
        (getDriverAndDevice l0 deviceType).res = .throw (.runtime_error "getDevice failed")) := by
  rw [getDriverAndDevice_res l0 deviceType h]
  constructor
  · intro pre p post hsplit hp hpre
    have hnone : pre.find? (fun p => decide (deviceType = l0.deviceType p.2)) = none := by
      rw [List.find?_eq_none]
      intro q hq
      simpa using fun heq => hpre q hq heq.symm
    simp [hsplit, List.find?_append, hnone, hp]
  · intro hall
    have hnone : (devicePairs l0 l0.drivers).find?
        (fun p => decide (deviceType = l0.deviceType p.2)) = none := by
      rw [List.find?_eq_none]
      intro q hq
      simpa using fun heq => hall q hq heq.symm
    simp [hnone]

theorem l0Ok_enumerationSucceeds : EnumerationSucceeds l0Ok :=
  ⟨rfl, rfl, rfl, fun _ _ => ⟨rfl, rfl, fun _ _ => rfl⟩⟩

/-- C4 at `l0Ok`: driver `10` has no device, device `21` of driver `20` is not a GPU,
and the pair returned is `(20, 22)`. -/
theorem getDriverAndDevice_first_match_witness :
    EnumerationSucceeds l0Ok ∧
    (getDriverAndDevice l0Ok ZE_DEVICE_TYPE_GPU).res = .ok (20, 22) :=
  ⟨l0Ok_enumerationSucceeds,
    (getDriverAndDevice_first_match l0Ok ZE_DEVICE_TYPE_GPU l0Ok_enumerationSucceeds).1
      [(20, 21)] (20, 22) [] (by decide) (by decide) (by decide)⟩

@[simp] theorem mk_ok_bind {α β : Type} (t : List Event) (a : α) (f : α → Run β) :
    ((⟨t, .ok a⟩ : Run α) >>= f) = ⟨t ++ (f a).trace, (f a).res⟩ := rfl

@[simp] theorem mk_throw_bind {α β : Type} (t : List Event) (e : Exn) (f : α → Run β) :
    ((⟨t, .throw e⟩ : Run α) >>= f) = ⟨t, .throw e⟩ := rfl

@[simp] theorem mk_halt_bind {α β : Type} (t : List Event) (h : Halt) (f : α → Run β) :
    ((⟨t, .halt h⟩ : Run α) >>= f) = ⟨t, .halt h⟩ := rfl

/-! ### `loadModule`: the build flags -/

theorem build_flags_eq_flagsByPrecedence (getenv : String → Option String) :
    build_flags getenv = flagsByPrecedence getenv := by
  unfold build_flags flagsByPrecedence
  cases getenv "COMPILE_IGC_FLAGS" <;> cases getenv "MIMIC_OCLOC" <;>
    cases getenv "ENABLE_VC_PATH" <;> simp

/-- C1: for every environment, `loadModule` first reports and then passes to
`zeModuleCreate`, as `desc.pBuildFlags`, the flags chosen by the precedence raw
flags (`COMPILE_IGC_FLAGS`, verbatim) > preset (`MIMIC_OCLOC` set) > "-vc-codegen"
(`ENABLE_VC_PATH` set) > none (null). -/
theorem loadModule_build_flags_precedence (getenv : String → Option String) (l0 : L0)
    (queue : GPUL0QUEUE) (data : List Nat) (dataSize : Nat) :
    ∃ rest, (loadModule getenv l0 queue data dataSize).trace =
      .write .stderr ("L0 module build flags: " ++ (flagsByPrecedence getenv).getD "empty" ++ "\n")
      :: .ze (.zeModuleCreate queue.zeContext_ queue.zeDevice_ data dataSize
            (flagsByPrecedence getenv) none) (l0.zeModuleCreate data (flagsByPrecedence getenv))
      :: rest := by
  rw [← build_flags_eq_flagsByPrecedence]
  by_cases h : l0.zeModuleCreate data (build_flags getenv) = ZE_RESULT_SUCCESS
  · simp [loadModule, h, CHECK_ZE_RESULT_success, emit_bind]
  · refine ⟨[], ?_⟩
    simp [loadModule, emit_bind, CHECK_ZE_RESULT_failure _ _ _ h]

/-- With all three variables set, `MIMIC_OCLOC` and `ENABLE_VC_PATH` to the empty
string, the flags are the value of `COMPILE_IGC_FLAGS`, not the preset. -/
theorem build_flags_raw_over_preset : build_flags envAll = some "-O0" := by
  decide

/-- With `MIMIC_OCLOC` set to the empty string and `COMPILE_IGC_FLAGS` not set, the
flags are the preset. -/
theorem build_flags_preset_on_empty_value :
    build_flags (fun name => if name = "MIMIC_OCLOC" then some "" else none) =
      some mimicOclocFlags := by
  decide

/-! ### The destructor -/

/-- C2, as the claim states it, fails: on the fully constructed queue `queueOk`,
with every driver call succeeding, the destructor calls `zeContextDestroy`
first and `zeCommandListDestroy` second, so the command list is not released
before the context. -/
theorem destroy_commandList_not_first :
    (GPUL0QUEUE.destroy l0Ok queueOk).trace =
      [.ze (.zeContextDestroy 120) ZE_RESULT_SUCCESS,
        .ze (.zeCommandListDestroy 220) ZE_RESULT_SUCCESS] ∧
    ¬ Precedes (.ze (.zeCommandListDestroy 220) ZE_RESULT_SUCCESS)
        (.ze (.zeContextDestroy 120) ZE_RESULT_SUCCESS) (GPUL0QUEUE.destroy l0Ok queueOk).trace := by
  decide

/-- C2, amended: destroying a queue whose context and command list are both
non-null, with both driver calls succeeding, issues exactly two driver calls,
`zeContextDestroy` on the context first and `zeCommandListDestroy` on the
command list second; no call releases the device or the driver. -/
theorem destroy_context_then_commandList (l0 : L0) (q : GPUL0QUEUE)
    (hctx : q.zeContext_ ≠ nullptr) (hcl : q.zeCommandList_ ≠ nullptr)
    (h1 : l0.zeContextDestroy q.zeContext_ = ZE_RESULT_SUCCESS)
    (h2 : l0.zeCommandListDestroy q.zeCommandList_ = ZE_RESULT_SUCCESS) :
    GPUL0QUEUE.destroy l0 q =
      ⟨[.ze (.zeContextDestroy q.zeContext_) ZE_RESULT_SUCCESS,
        .ze (.zeCommandListDestroy q.zeCommandList_) ZE_RESULT_SUCCESS], .ok ()⟩ := by
  simp [GPUL0QUEUE.destroy, GPUL0QUEUE.destructorBody, hctx, hcl, h1, h2,
    CHECK_ZE_RESULT_success, emit_bind, noexcept, emit, Run.pure_eq]

/-- C2, amended, at `l0Ok` and `queueOk`. -/
theorem destroy_context_then_commandList_witness :
    GPUL0QUEUE.destroy l0Ok queueOk =
      ⟨[.ze (.zeContextDestroy 120) ZE_RESULT_SUCCESS,
        .ze (.zeCommandListDestroy 220) ZE_RESULT_SUCCESS], .ok ()⟩ :=
  destroy_context_then_commandList l0Ok queueOk (by decide) (by decide) rfl rfl

/-! ### Properties of every event of a run -/

theorem Run.All.bind {α β : Type} {P : Event → Prop} {m : Run α} {f : α → Run β}
    (hm : m.All P) (hf : ∀ a, (f a).All P) : (m >>= f).All P := by
  intro e he
  rw [Run.bind_eq] at he
  unfold Run.bind at he
  cases hres : m.res with
  | ok a =>
    rw [hres] at he
    rcases List.mem_append.mp he with h | h
    · exact hm e h
    · exact hf a e h
  | throw x => rw [hres] at he; exact hm e he
  | halt x => rw [hres] at he; exact hm e he

theorem Run.All.pure {α : Type} {P : Event → Prop} (a : α) : (Pure.pure a : Run α).All P := by
  intro e he
  cases he

theorem Run.All.emit {P : Event → Prop} {e : Event} (h : P e) : (JitRepro.emit e).All P := by
  intro x hx
  rcases List.mem_singleton.mp hx with rfl
  exact h

theorem Run.All.throwRuntimeError {α : Type} {P : Event → Prop} (what : String) :
    (JitRepro.throwRuntimeError what : Run α).All P := by
  intro e he
  cases he

theorem Run.All.check {P : Event → Prop} {call : ZeCall} {res : ze_result_t} (expr : String)
    (h : P (.ze call res)) : (CHECK_ZE_RESULT call res expr).All P := by
  unfold CHECK_ZE_RESULT checkResult
  refine Run.All.bind (Run.All.emit h) (fun _ => ?_)
  split
  · exact Run.All.throwRuntimeError _
  · exact Run.All.pure _

theorem Run.All.catchAll {α : Type} {P : Event → Prop} {m : Run α} (hm : m.All P)
    (hw : ∀ text, P (.write .stdout text)) : (JitRepro.catchAll m).All P := by
  unfold JitRepro.catchAll
  split
  · intro e he
    rcases List.mem_append.mp he with h | h
    · exact hm e h
    · rcases List.mem_singleton.mp h with rfl
      exact hw _
  · exact hm

theorem deviceLoop_all {P : Event → Prop} (l0 : L0) (deviceType : Nat) (driver : Handle)
    (hp : ∀ d r, P (.ze (.zeDeviceGetProperties d) r)) (hw : ∀ text, P (.write .stdout text))
    (devs : List Handle) : (deviceLoop l0 deviceType driver devs).All P := by
  induction devs with
  | nil => exact Run.All.pure _
  | cons d rest ih =>
    unfold deviceLoop
    refine Run.All.bind (Run.All.check _ (hp _ _)) (fun _ => ?_)
    refine Run.All.bind (Run.All.emit (hw _)) (fun _ => ?_)
    refine Run.All.bind (Run.All.emit (hw _)) (fun _ => ?_)
    split
    · exact Run.All.pure _
    · exact ih

theorem driverLoop_all {P : Event → Prop} (l0 : L0) (deviceType : Nat)
    (hc : ∀ d r, P (.ze (.zeDeviceGetCount d) r)) (hg : ∀ d n r, P (.ze (.zeDeviceGet d n) r))
    (hp : ∀ d r, P (.ze (.zeDeviceGetProperties d) r)) (hw : ∀ text, P (.write .stdout text))
    (drvs : List Handle) : (driverLoop l0 deviceType drvs).All P := by
  induction drvs with
  | nil => exact Run.All.throwRuntimeError _
  | cons d rest ih =>
    unfold driverLoop
    refine Run.All.bind (Run.All.check _ (hc _ _)) (fun _ => ?_)
    refine Run.All.bind (Run.All.emit (hw _)) (fun _ => ?_)
    split
    · exact ih
    · refine Run.All.bind (Run.All.check _ (hg _ _ _)) (fun _ => ?_)
      refine Run.All.bind (deviceLoop_all l0 deviceType d hp hw _) (fun found => ?_)
      cases found with
      | none => exact ih
      | some p => exact Run.All.pure _

/-- The events of `getDriverAndDevice` are enumeration calls and lines on `stdout`. -/
theorem getDriverAndDevice_all {P : Event → Prop} (l0 : L0) (deviceType : Nat)
    (hi : ∀ f r, P (.ze (.zeInit f) r)) (hdc : ∀ r, P (.ze .zeDriverGetCount r))
    (hd : ∀ n r, P (.ze (.zeDriverGet n) r))
    (hc : ∀ d r, P (.ze (.zeDeviceGetCount d) r)) (hg : ∀ d n r, P (.ze (.zeDeviceGet d n) r))
    (hp : ∀ d r, P (.ze (.zeDeviceGetProperties d) r)) (hw : ∀ text, P (.write .stdout text)) :
    (getDriverAndDevice l0 deviceType).All P := by
  unfold getDriverAndDevice
  refine Run.All.bind (Run.All.check _ (hi _ _)) (fun _ => ?_)
  refine Run.All.bind (Run.All.check _ (hdc _)) (fun _ => ?_)
  refine Run.All.bind (Run.All.check _ (hd _ _)) (fun _ => ?_)
  refine Run.All.bind (Run.All.emit (hw _)) (fun _ => ?_)
  exact driverLoop_all l0 deviceType hc hg hp hw _

/-- No event of the constructor is a call of `zeContextDestroy`. -/
theorem construct_no_contextDestroy (l0 : L0) :
    (GPUL0QUEUE.construct l0).All (fun e => e.isContextDestroy = false) := by
  unfold GPUL0QUEUE.construct
  refine Run.All.bind (getDriverAndDevice_all l0 _ ?_ ?_ ?_ ?_ ?_ ?_ ?_) (fun _ => ?_)
  · intro _ _; rfl
  · intro _; rfl
  · intro _ _; rfl
  · intro _ _; rfl
  · intro _ _ _; rfl
  · intro _ _; rfl
  · intro _; rfl
  refine Run.All.bind (Run.All.check _ rfl) (fun _ => ?_)
  refine Run.All.bind (Run.All.check _ rfl) (fun _ => ?_)
  refine Run.All.bind (Run.All.check _ rfl) (fun _ => ?_)
  refine Run.All.bind (Run.All.check _ rfl) (fun _ => ?_)
  exact Run.All.pure _

/-- Every call of `zeCommandListCreateImmediate` by the constructor uses the
ordinal left by the loop over the queue groups of the device of that call. -/
theorem construct_ordinal (l0 : L0) :
    (GPUL0QUEUE.construct l0).All (fun e => ∀ c d m o r,
      e = .ze (.zeCommandListCreateImmediate c d m o) r →
        o = selectOrdinal (l0.queueGroups d)) := by
  unfold GPUL0QUEUE.construct
  refine Run.All.bind (getDriverAndDevice_all l0 _ ?_ ?_ ?_ ?_ ?_ ?_ ?_) (fun _ => ?_)
  · intro _ _ c d m o r h; cases h
  · intro _ c d m o r h; cases h
  · intro _ _ c d m o r h; cases h
  · intro _ _ c d m o r h; cases h
  · intro _ _ _ c d m o r h; cases h
  · intro _ _ c d m o r h; cases h
  · intro _ c d m o r h; cases h
  refine Run.All.bind (Run.All.check _ ?_) (fun _ => ?_)
  · intro c d m o r h
    cases h
  refine Run.All.bind (Run.All.check _ ?_) (fun _ => ?_)
  · intro c d m o r h
    cases h
  refine Run.All.bind (Run.All.check _ ?_) (fun _ => ?_)
  · intro c d m o r h
    cases h
  refine Run.All.bind (Run.All.check _ ?_) (fun _ => ?_)
  · intro c d m o r h
    cases h
    rfl
  · exact Run.All.pure _

/-! ### The queue-group ordinal -/

theorem ordinalLoop_spec (groups : List ze_command_queue_group_properties_t) :
    ∀ i ordinal,
      ((∀ p ∈ groups, ¬ IsCompute p) ∧ ordinalLoop groups i ordinal = ordinal) ∨
      (∃ k, ordinalLoop groups i ordinal = i + k ∧ LastComputeGroup groups k) := by
  induction groups with
  | nil =>
    intro i ordinal
    exact Or.inl ⟨fun p hp => (by cases hp), rfl⟩
  | cons g rest ih =>
    intro i ordinal
    by_cases hg : IsCompute g
    · have hstep : ordinalLoop (g :: rest) i ordinal = ordinalLoop rest (i + 1) i := by
        have hg' : g.flags &&& ZE_COMMAND_QUEUE_GROUP_PROPERTY_FLAG_COMPUTE ≠ 0 := hg
        simp [ordinalLoop, hg']
      right
      rcases ih (i + 1) i with ⟨hnone, heq⟩ | ⟨k, heq, ⟨p, hp, hpc⟩, hlast⟩
      · refine ⟨0, by rw [hstep, heq]; rfl, ⟨g, by simp, hg⟩, ?_⟩
        intro j p hj hp
        obtain ⟨j', rfl⟩ : ∃ j', j = j' + 1 := ⟨j - 1, by omega⟩
        rw [List.getElem?_cons_succ] at hp
        exact hnone p (List.getElem?_mem hp)
      · refine ⟨k + 1, by rw [hstep, heq]; omega, ⟨p, by simpa using hp, hpc⟩, ?_⟩
        intro j q hj hq
        obtain ⟨j', rfl⟩ : ∃ j', j = j' + 1 := ⟨j - 1, by omega⟩
        rw [List.getElem?_cons_succ] at hq
        exact hlast j' q (by omega) hq
    · have hstep : ordinalLoop (g :: rest) i ordinal = ordinalLoop rest (i + 1) ordinal := by
        have hg' : ¬ g.flags &&& ZE_COMMAND_QUEUE_GROUP_PROPERTY_FLAG_COMPUTE ≠ 0 := hg
        simp only [ordinalLoop, hg', if_false]
      rcases ih (i + 1) ordinal with ⟨hnone, heq⟩ | ⟨k, heq, ⟨p, hp, hpc⟩, hlast⟩
      · left
        refine ⟨?_, by rw [hstep, heq]⟩
        intro p hp
        rcases List.mem_cons.mp hp with rfl | h
        · exact hg
        · exact hnone p h
      · right
        refine ⟨k + 1, by rw [hstep, heq]; omega, ⟨p, by simpa using hp, hpc⟩, ?_⟩
        intro j q hj hq
        obtain ⟨j', rfl⟩ : ∃ j', j = j' + 1 := ⟨j - 1, by omega⟩
        rw [List.getElem?_cons_succ] at hq
        exact hlast j' q (by omega) hq

theorem selectOrdinal_last (groups : List ze_command_queue_group_properties_t)
    (h : ∃ p ∈ groups, IsCompute p) : LastComputeGroup groups (selectOrdinal groups) := by
  rcases ordinalLoop_spec groups 0 0 with ⟨hnone, _⟩ | ⟨k, heq, hlast⟩
  · obtain ⟨p, hp, hc⟩ := h
    exact absurd hc (hnone p hp)
  · have : selectOrdinal groups = k := by
      unfold selectOrdinal
      omega
    rw [this]
    exact hlast

/-- C3, as the claim states it, fails: the device of `l0Ok` reports queue groups
with flags `1`, `3`, `2`, so groups `0` and `1` are compute groups, and the
constructor creates the command list with ordinal `1`, which is not the first
compute group. -/
theorem construct_ordinal_not_first :
    .ze (.zeCommandListCreateImmediate 120 22 ZE_COMMAND_QUEUE_MODE_SYNCHRONOUS 1)
        ZE_RESULT_SUCCESS ∈ (GPUL0QUEUE.construct l0Ok).trace ∧
    (∃ p ∈ l0Ok.queueGroups 22, IsCompute p) ∧
    ¬ FirstComputeGroup (l0Ok.queueGroups 22) 1 := by
  refine ⟨by decide, ⟨⟨1⟩, by decide, by decide⟩, ?_⟩
  intro h
  exact h.2 0 ⟨1⟩ (by decide) rfl (by decide)

/-- C3, amended: whenever the constructor calls `zeCommandListCreateImmediate` and
the queue groups of the device include a compute group, the ordinal passed
(`desc.ordinal`) is the index of the LAST group whose flags include
`ZE_COMMAND_QUEUE_GROUP_PROPERTY_FLAG_COMPUTE`. -/
theorem construct_ordinal_last_compute (l0 : L0) (context device : Handle) (mode ordinal : Nat)
    (res : ze_result_t)
    (hcall : .ze (.zeCommandListCreateImmediate context device mode ordinal) res ∈
      (GPUL0QUEUE.construct l0).trace)
    (hcompute : ∃ p ∈ l0.queueGroups device, IsCompute p) :
    LastComputeGroup (l0.queueGroups device) ordinal := by
  have h := construct_ordinal l0 _ hcall context device mode ordinal res rfl
  rw [h]
  exact selectOrdinal_last _ hcompute

/-- C3, amended, at `l0Ok`: the ordinal `1` is the last compute group of flags `1`, `3`, `2`. -/
theorem construct_ordinal_last_compute_witness :
    .ze (.zeCommandListCreateImmediate 120 22 ZE_COMMAND_QUEUE_MODE_SYNCHRONOUS 1)
        ZE_RESULT_SUCCESS ∈ (GPUL0QUEUE.construct l0Ok).trace ∧
    (∃ p ∈ l0Ok.queueGroups 22, IsCompute p) ∧
    LastComputeGroup (l0Ok.queueGroups 22) 1 :=
  ⟨by decide, ⟨⟨1⟩, by decide, by decide⟩,
    construct_ordinal_last_compute l0Ok 120 22 ZE_COMMAND_QUEUE_MODE_SYNCHRONOUS 1
      ZE_RESULT_SUCCESS (by decide) ⟨⟨1⟩, by decide, by decide⟩⟩

/-! ### Failure inside the constructor -/

/-- C6, as the claim states it, fails: on `l0CommandListFails` the call of
`zeContextCreate` succeeds and `zeCommandListCreateImmediate` then fails, the
constructor throws, and no call of `zeContextDestroy` is made, neither by the
constructor nor by `gpuCreateStream`, which logs the error and aborts. -/
theorem construct_leaks_context :
    .ze (.zeContextCreate 20) ZE_RESULT_SUCCESS ∈ (GPUL0QUEUE.construct l0CommandListFails).trace ∧
    (GPUL0QUEUE.construct l0CommandListFails).res = .throw (.runtime_error
      ("zeCommandListCreateImmediate(zeContext_, zeDevice_, &desc, &zeCommandList_)" ++
        " failed: 1879048193")) ∧
    (gpuCreateStream l0CommandListFails).trace.any Event.isContextDestroy = false ∧
    (gpuCreateStream l0CommandListFails).res = .halt .abort := by
  decide

/-- C6, amended: in every run in which `zeContextCreate` succeeds and a later step
of the constructor fails, no `zeContextDestroy` call is made; the error reaches
`catchAll` in `gpuCreateStream`, which writes it to `stdout` after the
constructor's events and aborts the process, so no queue is returned. -/
theorem construct_failure_aborts (l0 : L0) (driver : Handle) (e : Exn)
    (hctx : .ze (.zeContextCreate driver) ZE_RESULT_SUCCESS ∈ (GPUL0QUEUE.construct l0).trace)
    (hfail : (GPUL0QUEUE.construct l0).res = .throw e) :
    (∀ ev ∈ (gpuCreateStream l0).trace, ev.isContextDestroy = false) ∧
    (gpuCreateStream l0).res = .halt .abort ∧
    ∃ what, e = .runtime_error what ∧
      (gpuCreateStream l0).trace = (GPUL0QUEUE.construct l0).trace ++
        [.write .stdout ("An exception was thrown: " ++ what ++ "\n")] := by
  have _ := hctx
  refine ⟨Run.All.catchAll (construct_no_contextDestroy l0) (fun _ => rfl), ?_, ?_⟩
  · cases e with
    | runtime_error what => simp [gpuCreateStream, catchAll, hfail]
  · cases e with
    | runtime_error what => exact ⟨what, rfl, by simp [gpuCreateStream, catchAll, hfail]⟩

/-- C6, amended, at `l0CommandListFails`. -/
theorem construct_failure_aborts_witness :
    .ze (.zeContextCreate 20) ZE_RESULT_SUCCESS ∈
      (GPUL0QUEUE.construct l0CommandListFails).trace ∧
    (gpuCreateStream l0CommandListFails).res = .halt .abort :=
  ⟨by decide,
    (construct_failure_aborts l0CommandListFails 20
      (.runtime_error ("zeCommandListCreateImmediate(zeContext_, zeDevice_, &desc, " ++
        "&zeCommandList_) failed: 1879048193")) (by decide) (by decide)).2.1⟩

/-! ### `loadModule`: the build log -/

/-- C5, evaluated where the code departs from it: when `zeModuleCreate` returns the
non-success status `0x70000004`, `loadModule` throws right after that call; its
only events are the line reporting the flags and the `zeModuleCreate` call,
which passes no build-log handle, so no build log is retrieved or written. -/
theorem loadModule_failure_no_build_log :
    loadModule envEmpty l0BuildFails queueOk [3, 2, 35, 7] 4 =
      ⟨[.write .stderr "L0 module build flags: empty\n",
        .ze (.zeModuleCreate 120 22 [3, 2, 35, 7] 4 none none) 0x70000004],
       .throw (.runtime_error ("zeModuleCreate(gpuL0Queue->zeContext_, " ++
        "gpuL0Queue->zeDevice_, &desc, &zeModule, nullptr) failed: 1879048196"))⟩ := by
  decide

/-! ### The wrappers -/

/-- C9, evaluated where the code departs from it: when `zeContextDestroy` returns
the non-success status `0x70000001` inside `gpuStreamDestroy`, the exception
does not reach `catchAll`: it leaves the destructor, which is `noexcept`, so the
process is ended by `std::terminate` and the line "An exception was thrown" is
not written. -/
theorem gpuStreamDestroy_failure_terminates :
    gpuStreamDestroy l0DestroyFails (some queueOk) =
      ⟨[.ze (.zeContextDestroy 120) 0x70000001], .halt .terminate⟩ := by
  decide

/-! ### `main` -/

/-- C7, evaluated where the code departs from it: when `main.ll` does not parse,
`main` writes the diagnostic of `readIRFromFile` and then dereferences the
null module in `ir->print`; it does not stop before using the module. -/
theorem main_unparsed_ir_dereferences_null :
    (main hostBadIR ["jit", "kernel.spv"]).res = .halt .nullDereference ∧
    (main hostBadIR ["jit", "kernel.spv"]).trace.getLast? =
      some (.write .stderr "Could not read from mail.ll (expected top-level entity)\n") := by
  decide

/-- C10, evaluated where the code departs from it: when `InitializeNativeTarget`
returns `true` (no native target) the message is not written, and when it
returns `false` (success) the message is written; in both runs `main` goes on
to the next bootstrap steps. -/
theorem main_native_target_message_inverted :
    hostNoTarget.InitializeNativeTarget = true ∧
    nativeTargetMessage ∉ (main hostNoTarget ["jit", "kernel.spv"]).trace ∧
    hostOk.InitializeNativeTarget = false ∧
    nativeTargetMessage ∈ (main hostOk ["jit", "kernel.spv"]).trace ∧
    .host .InitializeNativeTargetAsmPrinter ∈ (main hostNoTarget ["jit", "kernel.spv"]).trace ∧
    .host .InitializeNativeTargetAsmPrinter ∈ (main hostOk ["jit", "kernel.spv"]).trace := by
  decide

/-- C8, as the claim states it, fails: with `argc = 1` on a host where
`detectHost` fails, `main` exits with code 1 without writing the usage message. -/
theorem main_exit_without_usage :
    ["jit"].length ≠ 2 ∧
    (main hostNoBuilder ["jit"]).res = .halt (.exit 1) ∧
    usageMessage ∉ (main hostNoBuilder ["jit"]).trace := by
  decide


/-- C8, amended: in every run of `main` with `argc != 2` the compiled entry point is
never called; and when every step before the test of `argc` succeeds, the
usage message is written and the process exits with code 1. -/
theorem main_wrong_argc (host : Host) (argv : List String) (hargc : argv.length ≠ 2) :
    (main host argv).trace.any Event.isCallEntryPoint = false ∧
    (ReachesArgumentCheck host →
      usageMessage ∈ (main host argv).trace ∧ (main host argv).res = .halt (.exit 1)) := by
  unfold ReachesArgumentCheck
  cases h2 : host.createExecutorProcessControl
  · cases h1 : host.InitializeNativeTarget <;>
      simp [main, cantFail, haltWith, emit_bind, Run.pure_eq, h1, h2, Event.isCallEntryPoint]
  cases h3 : host.detectHost
  · cases h1 : host.InitializeNativeTarget <;>
      simp [main, cantFail, haltWith, emit_bind, Run.pure_eq, h1, h2, h3,
        Event.isCallEntryPoint]
  cases h4 : host.getDefaultDataLayoutForTarget
  · cases h1 : host.InitializeNativeTarget <;>
      simp [main, cantFail, haltWith, emit_bind, Run.pure_eq, h1, h2, h3, h4,
        Event.isCallEntryPoint]
  cases h5 : host.createJITDylib
  · cases h1 : host.InitializeNativeTarget <;>
      simp [main, cantFail, haltWith, emit_bind, Run.pure_eq, h1, h2, h3, h4, h5,
        Event.isCallEntryPoint]
  cases h6 : host.getForCurrentProcess
  · cases h1 : host.InitializeNativeTarget <;>
      simp [main, cantFail, haltWith, emit_bind, Run.pure_eq, h1, h2, h3, h4, h5, h6,
        Event.isCallEntryPoint]
  cases h7 : host.parseIRFile "main.ll"
  · cases h1 : host.InitializeNativeTarget <;>
      simp [main, readIRFromFile, deref, cantFail, haltWith, emit_bind, Run.pure_eq, h1, h2,
        h3, h4, h5, h6, h7, Event.isCallEntryPoint]
  cases h8 : host.lookup "vadd_entry"
  · cases h1 : host.InitializeNativeTarget <;>
      simp [main, readIRFromFile, deref, cantFail, haltWith, emit_bind, Run.pure_eq, h1, h2,
        h3, h4, h5, h6, h7, h8, Event.isCallEntryPoint]
  cases h1 : host.InitializeNativeTarget <;>
    simp [main, readIRFromFile, deref, cantFail, haltWith, emit_bind, Run.pure_eq, h1, h2,
      h3, h4, h5, h6, h7, h8, hargc, Event.isCallEntryPoint, usageMessage]

/-- C8, amended, at `hostOk` with `argc = 1`. -/
theorem main_wrong_argc_witness :
    ["jit"].length ≠ 2 ∧ ReachesArgumentCheck hostOk ∧
    usageMessage ∈ (main hostOk ["jit"]).trace ∧ (main hostOk ["jit"]).res = .halt (.exit 1) :=
  ⟨by decide, ⟨rfl, rfl, rfl, rfl, rfl, rfl, rfl⟩,
    (main_wrong_argc hostOk ["jit"] (by decide)).2 ⟨rfl, rfl, rfl, rfl, rfl, rfl, rfl⟩⟩

/-! ### What holds of `checkResult` and `catchAll` on every path -/

/-- The function `checkResult` throws exactly when the status is not
`ZE_RESULT_SUCCESS`, and the message is the text of the call, " failed: " and
the status in decimal. -/
theorem checkResult_eq (res : ze_result_t) (func : String) :
    checkResult res func =
      if res = ZE_RESULT_SUCCESS then ⟨[], .ok ()⟩
      else ⟨[], .throw (.runtime_error (func ++ " failed: " ++ toString res))⟩ := by
  by_cases h : res = ZE_RESULT_SUCCESS <;> simp [checkResult, h, throwRuntimeError, Run.pure_eq]

/-- An exception that reaches `catchAll` is logged on `stdout` and the process is aborted. -/
theorem catchAll_of_throw {α : Type} (func : Run α) (what : String)
    (h : func.res = .throw (.runtime_error what)) :
    catchAll func =
      ⟨func.trace ++ [.write .stdout ("An exception was thrown: " ++ what ++ "\n")],
        .halt .abort⟩ := by
  simp [catchAll, h]

/-- A wrapper built on `catchAll` returns only when its body returned. -/
theorem catchAll_ok_iff {α : Type} (func : Run α) (a : α) :
    (catchAll func).res = .ok a ↔ func.res = .ok a := by
  unfold catchAll
  split
  · rename_i h
    simp [h]
  · rfl

/-- In `loadModule`, once `zeModuleCreate` and both `zeModuleBuildLogGetString` calls
succeed, the build log is queried on the null handle and written exactly when
`logSize > 0`. -/
theorem loadModule_success_log (getenv : String → Option String) (l0 : L0) (queue : GPUL0QUEUE)
    (data : List Nat) (dataSize : Nat)
    (h1 : l0.zeModuleCreate data (build_flags getenv) = ZE_RESULT_SUCCESS)
    (h2 : l0.zeModuleBuildLogGetStringSize nullptr = ZE_RESULT_SUCCESS)
    (h3 : l0.zeModuleBuildLogGetString nullptr = ZE_RESULT_SUCCESS) :
    loadModule getenv l0 queue data dataSize =
      ⟨[.write .stderr ("L0 module build flags: " ++ (build_flags getenv).getD "empty" ++ "\n"),
        .ze (.zeModuleCreate queue.zeContext_ queue.zeDevice_ data dataSize
          (build_flags getenv) none) ZE_RESULT_SUCCESS,
        .ze (.zeModuleBuildLogGetStringSize nullptr) ZE_RESULT_SUCCESS,
        .ze (.zeModuleBuildLogGetString nullptr (l0.buildLogSize nullptr)) ZE_RESULT_SUCCESS] ++
        (if l0.buildLogSize nullptr > 0 then
          [.write .stderr ("L0 Module build log:\n" ++ l0.buildLog nullptr ++ "\n")]
        else []),
       .ok (l0.module data (build_flags getenv))⟩ := by
  by_cases hs : 0 < l0.buildLogSize nullptr
  · simp [loadModule, h1, h2, h3, hs, CHECK_ZE_RESULT_success, emit_bind, Run.pure_eq]
  · simp [loadModule, h1, h2, h3, hs, CHECK_ZE_RESULT_success, emit_bind, Run.pure_eq]

end JitRepro
